import Mathlib

/-!
Shallow embedding of the CMCP core of vesper-libs (src/vesper_cmcp) and
proofs about it.  Machine integers are modelled as `Nat` with explicit
`% 2^16` (resp. `% 2^8`, `% 2^64`) at the points where the C code performs
a narrowing conversion or where overflow matters.  Fallible C functions
(returning `-1`/`NULL` and setting `vsp_error_num()`) are modelled with
`Except VspErr`.
-/

namespace Vesper

/-- The POSIX-style error numbers used by the core
(`vsp_error_set_num` values appearing in src/vesper_cmcp). -/
inductive VspErr where
  | einval
  | enomem
  | ealready
  | enotconn
  | etimedout
  deriving DecidableEq, Repr

deriving instance DecidableEq for Except

/-- Write a 16-bit value as two bytes in the host's (little-endian) byte order,
as the raw `*(uint16_t*)p = v` stores of the codec do.  The `% 256` makes the
narrowing to bytes explicit. -/
def encode16 (n : Nat) : List Nat := [n % 256, n / 256 % 256]

/-- Read a 16-bit value from two bytes, inverse of the raw 16-bit store. -/
def decode16 (b0 b1 : Nat) : Nat := b0 % 256 + 256 * (b1 % 256)

/-- Read a 64-bit value from the first 8 bytes of a buffer, as the
`*(uint64_t*)` dereference of a nonce data-list item does. -/
def decode64 (b : List Nat) : Nat :=
  (b.take 8).foldr (fun byte acc => byte % 256 + 256 * acc) 0

theorem decode16_encode16 (n : Nat) :
    decode16 ((encode16 n).getD 0 0) ((encode16 n).getD 1 0) = n % 65536 := by
  show (n % 256) % 256 + 256 * ((n / 256 % 256) % 256) = n % 65536
  omega

/-! ## Data lists (src/vesper_cmcp/vsp_cmcp_datalist.c)

A data-list item is the triple (16-bit item ID, 16-bit length, payload bytes);
in the embedding the payload list carries its own length.  The C stores the
items in three parallel arrays indexed `0 ..< data_item_count`; here the list
order is the array order. -/

/-- One data-list item: `data_item_ids[i]` together with the
`data_item_lengths[i]` payload bytes behind `data_item_pointers[i]`. -/
structure DataItem where
  id : Nat
  data : List Nat
  deriving DecidableEq, Repr

/-- `VSP_CMCP_DATALIST_MAX_ITEMS`. -/
def VSP_CMCP_DATALIST_MAX_ITEMS : Nat := 16

/-- `vsp_cmcp_datalist_find_item`: index of the first item with the given ID,
`none` for the C return value `-1`. -/
def vsp_cmcp_datalist_find_item (dl : List DataItem) (dataItemId : Nat) :
    Option Nat :=
  dl.findIdx? (fun it => it.id == dataItemId)

/-- `vsp_cmcp_datalist_add_item`: reject when the list is full (`ENOMEM`) or
the item ID is already present (`EALREADY`), else append. -/
def vsp_cmcp_datalist_add_item (dl : List DataItem) (dataItemId : Nat)
    (dataItemData : List Nat) : Except VspErr (List DataItem) :=
  if ¬ dl.length < VSP_CMCP_DATALIST_MAX_ITEMS then
    .error .enomem
  else if (vsp_cmcp_datalist_find_item dl dataItemId).isSome then
    .error .ealready
  else
    .ok (dl ++ [⟨dataItemId, dataItemData⟩])

/-- `vsp_cmcp_datalist_get_data_length`: total length accumulated in a
16-bit counter, 4 header bytes plus the stored length per item. -/
def vsp_cmcp_datalist_get_data_length (dl : List DataItem) : Nat :=
  dl.foldl (fun acc it => (acc + 4 + it.data.length) % 65536) 0

/-- `vsp_cmcp_datalist_get_data`: serialize the items in order, each as
`[item_id:2][length:2][payload]`. -/
def vsp_cmcp_datalist_get_data (dl : List DataItem) : List Nat :=
  dl.flatMap (fun it => encode16 it.id ++ encode16 it.data.length ++ it.data)

/-- `vsp_cmcp_datalist_get_data_item`: look up by item ID, then check the
stored length against the expected one; `EINVAL` on either failure. -/
def vsp_cmcp_datalist_get_data_item (dl : List DataItem) (dataItemId : Nat)
    (dataItemLength : Nat) : Except VspErr (List Nat) :=
  match dl.find? (fun it => it.id == dataItemId) with
  | none => .error .einval
  | some it =>
    if it.data.length == dataItemLength then .ok it.data else .error .einval

/-- The parse loop of `vsp_cmcp_datalist_create_parse`: greedily read
`[id:2][length:2][payload]` while at least 4 declared bytes remain, stop on a
truncated payload, silently skip items `vsp_cmcp_datalist_add_item` rejects. -/
def vsp_cmcp_datalist_parse_loop (dataLength : Nat) (buf : List Nat)
    (acc : List DataItem) : List DataItem :=
  if h : 4 ≤ dataLength then
    let dataItemId := decode16 (buf.getD 0 0) (buf.getD 1 0)
    let dataItemLength := decode16 (buf.getD 2 0) (buf.getD 3 0)
    let remaining := dataLength - 4
    if remaining < dataItemLength then
      acc
    else
      let payload := (buf.drop 4).take dataItemLength
      let acc' :=
        match vsp_cmcp_datalist_add_item acc dataItemId payload with
        | .ok dl => dl
        | .error _ => acc
      vsp_cmcp_datalist_parse_loop (remaining - dataItemLength)
        (buf.drop (4 + dataItemLength)) acc'
  else
    acc
termination_by dataLength
decreasing_by omega

/-- `vsp_cmcp_datalist_create_parse`: the C parameter `data_length` is a
`uint16_t`, so the passed value is narrowed modulo 2^16 before the loop. -/
def vsp_cmcp_datalist_create_parse (dataLength : Nat) (buf : List Nat) :
    List DataItem :=
  vsp_cmcp_datalist_parse_loop (dataLength % 65536) buf []

/-! ## Messages (vsp_cmcp_message.h and its callers)

`src/vesper_cmcp/vsp_cmcp_message.c` is a stale revision that neither matches
the declarations in `src/vesper_cmcp/vsp_cmcp_message.h` (4-argument
`vsp_cmcp_message_create` without a message type, `vsp_cmcp_message_get_id`
instead of the declared per-field getters) nor the call sites in
`vsp_cmcp_node.c`, `vsp_cmcp_server.c` and `vsp_cmcp_client.c`, which all pass
a `vsp_cmcp_message_type` to `vsp_cmcp_message_create`.  The implementation of
the typed codec is therefore modelled from the spec here; the parts both
revisions share (6-byte header layout, the `data_length >= 6` parse guard,
delegation to the data-list codec) follow the source file as well. -/

/-- `VSP_CMCP_MESSAGE_HEADER_LENGTH`. -/
def VSP_CMCP_MESSAGE_HEADER_LENGTH : Nat := 6

/-- The message types of vsp_cmcp_message.h: `control` (wire bit 0) and
`data` (wire bit 1). -/
inductive VspMessageType where
  | control
  | data
  deriving DecidableEq, Repr

/-- The wire bit of a message type. -/
def VspMessageType.bit : VspMessageType → Nat
  | .control => 0
  | .data => 1

/-- A message: 16-bit topic ID, 16-bit sender ID, the 16-bit wire-encoded
command word, and the data list (`none` for a header-only send message). -/
structure VspMessage where
  topicId : Nat
  senderId : Nat
  commandIdWire : Nat
  datalist : Option (List DataItem)
  deriving DecidableEq, Repr

/-- Modelled from the spec: `vsp_cmcp_message_create` of the typed revision of
vsp_cmcp_message.c, missing from src.  Per the spec the caller passes a
semantic command below 2^15 and a type, and the codec stores
`command_wire = (command << 1) | type_bit` (narrowed to 16 bits). -/
def vsp_cmcp_message_create (messageType : VspMessageType)
    (topicId senderId commandId : Nat) (datalist : Option (List DataItem)) :
    VspMessage :=
  { topicId := topicId % 65536
    senderId := senderId % 65536
    commandIdWire := (commandId * 2 + messageType.bit) % 65536
    datalist := datalist }

/-- The data-list part of a serialized message: empty for a header-only
message (`cmcp_datalist == NULL`), the serialized data list otherwise. -/
def datalistBytes : Option (List DataItem) → List Nat
  | none => []
  | some dl => vsp_cmcp_datalist_get_data dl

/-- `vsp_cmcp_message_get_data`: `[topic_id:2][sender_id:2][command_wire:2]`
followed by the serialized data list (absent data list: header only). -/
def vsp_cmcp_message_get_data (m : VspMessage) : List Nat :=
  encode16 m.topicId ++ encode16 m.senderId ++ encode16 m.commandIdWire ++
    datalistBytes m.datalist

/-- Modelled from the spec: `vsp_cmcp_message_create_parse` of the typed
revision of vsp_cmcp_message.c, missing from src.  The `data_length` parameter
is a `uint16_t`; a buffer shorter than the 6-byte header is rejected with
`EINVAL` (this guard is also present verbatim in the stale src revision);
the remaining bytes are handed to the data-list parser. -/
def vsp_cmcp_message_create_parse (dataLength : Nat) (buf : List Nat) :
    Except VspErr VspMessage :=
  let n := dataLength % 65536
  if n < VSP_CMCP_MESSAGE_HEADER_LENGTH then
    .error .einval
  else
    .ok
      { topicId := decode16 (buf.getD 0 0) (buf.getD 1 0)
        senderId := decode16 (buf.getD 2 0) (buf.getD 3 0)
        commandIdWire := decode16 (buf.getD 4 0) (buf.getD 5 0)
        datalist :=
          some (vsp_cmcp_datalist_create_parse
            (n - VSP_CMCP_MESSAGE_HEADER_LENGTH) (buf.drop 6)) }

/-- Modelled from the spec: `vsp_cmcp_message_get_type`; the type is the low
bit of the wire command word. -/
def vsp_cmcp_message_get_type (m : VspMessage) : VspMessageType :=
  if m.commandIdWire % 2 == 1 then .data else .control

/-- Modelled from the spec: `vsp_cmcp_message_get_command_id`; the semantic
command is the wire command word shifted right by one. -/
def vsp_cmcp_message_get_command_id (m : VspMessage) : Nat :=
  m.commandIdWire / 2

/-! ## Node-ID generation (src/vesper_cmcp/vsp_cmcp_node.c)

`vsp_cmcp_node_generate_id` draws `vsp_random_get()` values until the
role-shaped 16-bit truncation differs from the role's broadcast topic ID. -/

/-- `vsp_cmcp_node_type`. -/
inductive VspNodeType where
  | server
  | client
  deriving DecidableEq, Repr

/-- Modelled from the spec: `VSP_CMCP_SERVER_BROADCAST_TOPIC_ID`, the reserved
topic addressing all servers.  Its definition is not under src (the stale
vsp_cmcp_node.h only has the older single `VSP_CMCP_BROADCAST_TOPIC_ID 0`);
the spec's node-ID domain invariant (server IDs even, client IDs odd, neither
equal to any broadcast topic) requires the server-broadcast topic to be even
and the client-broadcast topic to be odd; the concrete reserved values 0 and 1
are used here. -/
def VSP_CMCP_SERVER_BROADCAST_TOPIC_ID : Nat := 0

/-- Modelled from the spec: `VSP_CMCP_CLIENT_BROADCAST_TOPIC_ID`, the reserved
topic addressing all clients; odd counterpart of the server-broadcast topic. -/
def VSP_CMCP_CLIENT_BROADCAST_TOPIC_ID : Nat := 1

/-- One candidate of the server branch: `(uint16_t) (vsp_random_get() << 1)`. -/
def serverIdCandidate (r : Nat) : Nat := (r * 2) % 65536

/-- One candidate of the client branch: `(uint16_t) (vsp_random_get() | 1)`. -/
def clientIdCandidate (r : Nat) : Nat := (r ||| 1) % 65536

/-- `vsp_cmcp_node_generate_id`: retry the role's candidate until it differs
from the role's broadcast topic ID.  The draws of `vsp_random_get()` are
passed explicitly; `none` models the (never-terminating) case that every
supplied draw was rejected. -/
def vsp_cmcp_node_generate_id (nodeType : VspNodeType) :
    List Nat → Option Nat
  | [] => none
  | r :: rest =>
    match nodeType with
    | .server =>
      if serverIdCandidate r == VSP_CMCP_SERVER_BROADCAST_TOPIC_ID then
        vsp_cmcp_node_generate_id .server rest
      else
        some (serverIdCandidate r)
    | .client =>
      if clientIdCandidate r == VSP_CMCP_CLIENT_BROADCAST_TOPIC_ID then
        vsp_cmcp_node_generate_id .client rest
      else
        some (clientIdCandidate r)

/-! ## Synchronized state cell (src/vesper_cmcp/vsp_cmcp_state.c)

`vsp_cmcp_state_await_state` runs, with the mutex held, the loop
`ret = 0; while (ret == 0 && state != target) ret = wait(deadline);`
followed by the final check `state == target` that on failure sets
`ETIMEDOUT` and returns -1.  Each call of
`vsp_cmcp_state_wait` is modelled as one trace event `(timedOut, stateAfter)`:
`timedOut` is whether `pthread_cond_timedwait` returned `ETIMEDOUT` (the
deadline elapsed), and `stateAfter` is the cell's value observed after the
wait returned (writers can only run while the waiter is inside `wait`). -/

/-- `vsp_cmcp_state_await_state` over a trace of wait events.  Result
`some (.ok v)` is success (returning 0) with `v` the cell value at return,
`some (.error e)` failure with `vsp_error_num() = e` and the value at return,
`none` an exhausted trace (the waiter is still blocked). -/
def vsp_cmcp_state_await_state (state target : Int) :
    List (Bool × Int) → Option (Except (VspErr × Int) Int)
  | [] => if state = target then some (.ok state) else none
  | (timedOut, stateAfter) :: rest =>
    if state = target then
      some (.ok state)
    else if timedOut then
      -- wait returned ETIMEDOUT: the loop exits, the final check decides
      if stateAfter = target then
        some (.ok stateAfter)
      else
        some (.error (.etimedout, stateAfter))
    else
      vsp_cmcp_state_await_state stateAfter target rest

/-- The cell's value was observed equal to `target` before the deadline
elapsed: some check of the `await_state` loop that is not preceded by a
timed-out wait sees the target value. -/
def observedBeforeDeadline (state target : Int) : List (Bool × Int) → Bool
  | [] => state == target
  | (timedOut, stateAfter) :: rest =>
    state == target ||
      (!timedOut && observedBeforeDeadline stateAfter target rest)

/-! ## Server session (src/vesper_cmcp/vsp_cmcp_server.c)

The interesting state is the peer registry: the parallel arrays
`client_ids[0 ..< client_count]` and `client_data[0 ..< client_count]`
(the latter holding each peer's `time_connection_timeout`), modelled as a
list of (client ID, timeout deadline) pairs in array order, together with the
announcement callback and the presence of the disconnect callback.  Socket
and callback side effects are collected as a list of actions. -/

/-- `VSP_CMCP_SERVER_MAX_PEERS`. -/
def VSP_CMCP_SERVER_MAX_PEERS : Nat := 16

/-- Modelled from the spec: `VSP_CMCP_NODE_CONNECTION_TIMEOUT` (default 10 s,
in milliseconds), declared and used but not defined under src. -/
def VSP_CMCP_NODE_CONNECTION_TIMEOUT : Nat := 10000

/-- The command numbers of the `vsp_cmcp_client_command_id` enum of
vsp_cmcp_command.h. -/
def VSP_CMCP_COMMAND_CLIENT_ANNOUNCE : Nat := 0
def VSP_CMCP_COMMAND_CLIENT_HEARTBEAT : Nat := 1
def VSP_CMCP_COMMAND_CLIENT_DISCONNECT : Nat := 2

/-- The command numbers of the `vsp_cmcp_server_command_id` enum of
vsp_cmcp_command.h. -/
def VSP_CMCP_COMMAND_SERVER_HEARTBEAT : Nat := 0
def VSP_CMCP_COMMAND_SERVER_ACK_CLIENT : Nat := 1
def VSP_CMCP_COMMAND_SERVER_NACK_CLIENT : Nat := 2

/-- `VSP_CMCP_PARAMETER_NONCE` (8-byte uint64 data-list item). -/
def VSP_CMCP_PARAMETER_NONCE : Nat := 0

/-- Side effects of the server control path: subscribe/unsubscribe the
inbound socket, send an ACK/NACK control message to a client with the nonce
echoed back, invoke the disconnect callback. -/
inductive ServerAction where
  | subscribe (topicId : Nat)
  | unsubscribe (topicId : Nat)
  | sendAck (clientId nonce : Nat)
  | sendNack (clientId nonce : Nat)
  | disconnectCb (clientId : Nat)
  deriving DecidableEq, Repr

/-- The parts of `struct vsp_cmcp_server` the control path reads and writes. -/
structure ServerState where
  /-- `(client_ids[i], client_data[i]->time_connection_timeout)` pairs. -/
  clients : List (Nat × Nat)
  /-- `announcement_cb` (`none` = `NULL`); returns 0 to admit the client. -/
  announcementCb : Option (Nat → Int)
  /-- whether `disconnect_cb` is set. -/
  hasDisconnectCb : Bool

/-- `vsp_cmcp_server_find_client`: index of the client ID in the registry,
`-1` if not registered. -/
def vsp_cmcp_server_find_client (s : ServerState) (clientId : Nat) : Int :=
  match s.clients.findIdx? (fun c => c.1 == clientId) with
  | some index => (index : Int)
  | none => -1

/-- `vsp_cmcp_server_register_client`: decide admission exactly as the C does
(note the duplicate check compares the found index against 0, not against -1),
then either append `(client_id, now + connection timeout)`, subscribe and ACK,
or leave the registry alone and NACK; the nonce is echoed in both cases. -/
def vsp_cmcp_server_register_client (s : ServerState)
    (clientId clientNonce now : Nat) : ServerState × List ServerAction :=
  let success : Bool :=
    if vsp_cmcp_server_find_client s clientId == 0 then
      -- "client peer ID already registered"
      false
    else if VSP_CMCP_SERVER_MAX_PEERS ≤ s.clients.length then
      -- "maximum number of peers already registered"
      false
    else
      match s.announcementCb with
      | none => false
      | some cb => cb clientId == 0
  if success then
    ({ s with clients :=
        s.clients ++ [(clientId, now + VSP_CMCP_NODE_CONNECTION_TIMEOUT)] },
      [.subscribe clientId, .sendAck clientId clientNonce])
  else
    (s, [.sendNack clientId clientNonce])

/-- `vsp_cmcp_server_deregister_client`: find the client's index — the C
asserts `index >= 0`, so an unregistered ID is modelled as `none` (debug
builds abort; NDEBUG builds continue into `client_data[-1]` and wrap
`client_count`) — then move the last entry into the freed slot, shrink the
registry, unsubscribe and invoke the disconnect callback if set. -/
def vsp_cmcp_server_deregister_client (s : ServerState) (clientId : Nat) :
    Option (ServerState × List ServerAction) :=
  match s.clients.findIdx? (fun c => c.1 == clientId) with
  | none => none
  | some index =>
    let count := s.clients.length - 1
    let clients' :=
      (s.clients.set index (s.clients.getD count (0, 0))).take count
    some ({ s with clients := clients' },
      [ServerAction.unsubscribe clientId] ++
        (if s.hasDisconnectCb then [ServerAction.disconnectCb clientId]
         else []))

/-- `vsp_cmcp_server_handle_control_message`: ignore non-client senders;
on `ClientAnnounce`, extract the 8-byte nonce item (ignore the message on
absence) and run registration; on `ClientDisconnect`, deregister the sender
unconditionally.  `none` propagates the deregistration assertion failure. -/
def vsp_cmcp_server_handle_control_message (s : ServerState)
    (senderId commandId : Nat) (datalist : List DataItem) (now : Nat) :
    Option (ServerState × List ServerAction) :=
  if ¬ senderId % 2 == 1 then
    some (s, [])
  else if commandId == VSP_CMCP_COMMAND_CLIENT_ANNOUNCE then
    match vsp_cmcp_datalist_get_data_item datalist VSP_CMCP_PARAMETER_NONCE 8
      with
    | .error _ => some (s, [])
    | .ok payload =>
      some (vsp_cmcp_server_register_client s senderId (decode64 payload) now)
  else if commandId == VSP_CMCP_COMMAND_CLIENT_DISCONNECT then
    vsp_cmcp_server_deregister_client s senderId
  else
    some (s, [])

/-- A nonce data-list item (`VSP_CMCP_PARAMETER_NONCE`, 8 bytes) holding the
64-bit value 42. -/
def nonceItem : DataItem := ⟨VSP_CMCP_PARAMETER_NONCE, [42, 0, 0, 0, 0, 0, 0, 0]⟩

/-- A server whose registry holds clients 1 and 3 and whose announcement
callback admits every client. -/
def bugServerState : ServerState :=
  { clients := [(1, 100), (3, 100)]
    announcementCb := some (fun _ => 0)
    hasDisconnectCb := false }

/-- A server with an empty registry and a disconnect callback installed. -/
def emptyServerState : ServerState :=
  { clients := []
    announcementCb := some (fun _ => 0)
    hasDisconnectCb := true }

/-- A server whose registry holds only client 5, disconnect callback set. -/
def oneClientServerState : ServerState :=
  { clients := [(5, 60)]
    announcementCb := some (fun _ => 0)
    hasDisconnectCb := true }

/-! ## Client session (src/vesper_cmcp/vsp_cmcp_client.c) -/

/-- `vsp_cmcp_client_state`. -/
inductive ClientFSM where
  | disconnected
  | tryingToConnect
  | heartbeatReceived
  | connected
  deriving DecidableEq, Repr

/-- The parts of `struct vsp_cmcp_client` the control path reads and writes:
own node ID, the recorded server ID, the session FSM value, the announcement
nonce and the connection-timeout deadline. -/
structure ClientSession where
  id : Nat
  serverId : Nat
  fsm : ClientFSM
  nonce : Nat
  timeoutDeadline : Nat
  deriving DecidableEq, Repr

/-- Side effect of the client control path: the announce control message of
`vsp_cmcp_client_send_announcement`, carrying the fresh nonce and addressed to
the recorded server. -/
inductive ClientAction where
  | sendAnnounce (serverId clientId nonce : Nat)
  deriving DecidableEq, Repr

/-- `vsp_cmcp_client_handle_control_message`.  In `TryingToConnect` only a
`ServerHeartbeat` is accepted: the sender becomes the recorded server, the FSM
moves to `HeartbeatReceived` and an announce with a fresh nonce is sent.  In
`HeartbeatReceived` only `ServerAckClient`/`ServerNackClient` from the
recorded server are accepted, and only when the 8-byte nonce item matches the
outstanding nonce: ACK moves to `Connected` and initializes the timeout
deadline, NACK moves to `Disconnected` and regenerates the node ID.  All other
control messages leave the session unchanged.  `freshNonce` stands for the
`vsp_random_get()` draw of `vsp_cmcp_client_send_announcement` and `freshId`
for the `vsp_cmcp_node_generate_id` result in the NACK branch. -/
def vsp_cmcp_client_handle_control_message (cs : ClientSession)
    (senderId commandId : Nat) (datalist : List DataItem)
    (now freshNonce freshId : Nat) : ClientSession × List ClientAction :=
  match cs.fsm with
  | .tryingToConnect =>
    if commandId == VSP_CMCP_COMMAND_SERVER_HEARTBEAT then
      ({ cs with
          serverId := senderId
          fsm := .heartbeatReceived
          nonce := freshNonce },
        [.sendAnnounce senderId cs.id freshNonce])
    else
      (cs, [])
  | .heartbeatReceived =>
    if senderId == cs.serverId &&
        (commandId == VSP_CMCP_COMMAND_SERVER_ACK_CLIENT ||
          commandId == VSP_CMCP_COMMAND_SERVER_NACK_CLIENT) then
      match vsp_cmcp_datalist_get_data_item datalist
        VSP_CMCP_PARAMETER_NONCE 8 with
      | .error _ => (cs, [])
      | .ok payload =>
        if decode64 payload == cs.nonce then
          if commandId == VSP_CMCP_COMMAND_SERVER_ACK_CLIENT then
            ({ cs with
                fsm := .connected
                timeoutDeadline := now + VSP_CMCP_NODE_CONNECTION_TIMEOUT },
              [])
          else
            ({ cs with fsm := .disconnected, id := freshId }, [])
        else
          (cs, [])
    else
      (cs, [])
  | _ => (cs, [])

/-- A 4092-byte payload, used to exercise the 16-bit length counter:
each item then occupies exactly 4096 wire bytes. -/
def bigPayload : List Nat := List.replicate 4092 0

/-- The (item ID, payload) arguments of 16 `add_item` calls with distinct
IDs 1..16 and 4092-byte payloads. -/
def bigItems : List (Nat × List Nat) :=
  [(1, bigPayload), (2, bigPayload), (3, bigPayload), (4, bigPayload),
   (5, bigPayload), (6, bigPayload), (7, bigPayload), (8, bigPayload),
   (9, bigPayload), (10, bigPayload), (11, bigPayload), (12, bigPayload),
   (13, bigPayload), (14, bigPayload), (15, bigPayload), (16, bigPayload)]

/-- The data list those 16 adds produce: true serialized size 65536. -/
def bigDatalist : List DataItem :=
  [⟨1, bigPayload⟩, ⟨2, bigPayload⟩, ⟨3, bigPayload⟩, ⟨4, bigPayload⟩,
   ⟨5, bigPayload⟩, ⟨6, bigPayload⟩, ⟨7, bigPayload⟩, ⟨8, bigPayload⟩,
   ⟨9, bigPayload⟩, ⟨10, bigPayload⟩, ⟨11, bigPayload⟩, ⟨12, bigPayload⟩,
   ⟨13, bigPayload⟩, ⟨14, bigPayload⟩, ⟨15, bigPayload⟩, ⟨16, bigPayload⟩]

/-- Fold a sequence of `vsp_cmcp_datalist_add_item` calls, stopping at the
first error (as a caller checking each return value would). -/
def addItems (dl : List DataItem) :
    List (Nat × List Nat) → Except VspErr (List DataItem)
  | [] => .ok dl
  | (dataItemId, d) :: rest =>
    match vsp_cmcp_datalist_add_item dl dataItemId d with
    | .ok dl2 => addItems dl2 rest
    | .error e => .error e

/-! ## Helper lemmas -/

theorem find_item_eq_none (dl : List DataItem) (dataItemId : Nat)
    (h : ∀ it ∈ dl, it.id ≠ dataItemId) :
    vsp_cmcp_datalist_find_item dl dataItemId = none := by
  simp only [vsp_cmcp_datalist_find_item, List.findIdx?_eq_none_iff]
  intro it hit
  simpa using h it hit

theorem add_item_ok (dl : List DataItem) (dataItemId : Nat) (d : List Nat)
    (hlen : dl.length < VSP_CMCP_DATALIST_MAX_ITEMS)
    (hfind : vsp_cmcp_datalist_find_item dl dataItemId = none) :
    vsp_cmcp_datalist_add_item dl dataItemId d =
      .ok (dl ++ [⟨dataItemId, d⟩]) := by
  simp [vsp_cmcp_datalist_add_item, hlen, hfind]

theorem addItems_ok (items : List (Nat × List Nat)) (dl : List DataItem)
    (hlen : dl.length + items.length ≤ VSP_CMCP_DATALIST_MAX_ITEMS)
    (hnodup : (dl.map DataItem.id ++ items.map Prod.fst).Nodup) :
    addItems dl items = .ok (dl ++ items.map fun p => ⟨p.1, p.2⟩) := by
  induction items generalizing dl with
  | nil => simp [addItems]
  | cons p rest ih =>
    obtain ⟨dataItemId, d⟩ := p
    have hmem : dataItemId ∉ dl.map DataItem.id := by
      rw [List.nodup_append] at hnodup
      exact fun hin => hnodup.2.2 hin (by simp)
    have hfind : vsp_cmcp_datalist_find_item dl dataItemId = none := by
      refine find_item_eq_none _ _ (fun it hit heq => hmem ?_)
      exact heq ▸ List.mem_map_of_mem DataItem.id hit
    have hlt : dl.length < VSP_CMCP_DATALIST_MAX_ITEMS := by
      simp only [List.length_cons] at hlen
      omega
    have hlen2 : (dl ++ [(⟨dataItemId, d⟩ : DataItem)]).length + rest.length ≤
        VSP_CMCP_DATALIST_MAX_ITEMS := by
      simp only [List.length_append, List.length_cons, List.length_nil]
        at hlen ⊢
      omega
    have hnodup2 : ((dl ++ [(⟨dataItemId, d⟩ : DataItem)]).map DataItem.id ++
        rest.map Prod.fst).Nodup := by
      have hshape : (dl ++ [(⟨dataItemId, d⟩ : DataItem)]).map DataItem.id ++
          rest.map Prod.fst =
          dl.map DataItem.id ++ (dataItemId :: rest.map Prod.fst) := by
        simp
      rw [hshape]
      simpa using hnodup
    have hstep := ih (dl ++ [⟨dataItemId, d⟩]) hlen2 hnodup2
    rw [addItems, add_item_ok dl dataItemId d hlt hfind]
    show addItems (dl ++ [⟨dataItemId, d⟩]) rest = _
    rw [hstep]
    simp

theorem get_data_length_foldl (dl : List DataItem) (acc : Nat)
    (hacc : acc < 65536) :
    dl.foldl (fun a it => (a + 4 + it.data.length) % 65536) acc =
      (acc + (dl.map fun it => 4 + it.data.length).sum) % 65536 := by
  induction dl generalizing acc with
  | nil => simp [Nat.mod_eq_of_lt hacc]
  | cons it rest ih =>
    simp only [List.foldl_cons, List.map_cons, List.sum_cons]
    rw [ih _ (Nat.mod_lt _ (by norm_num))]
    conv_rhs => rw [show acc + (4 + it.data.length + _) =
      acc + 4 + it.data.length + (rest.map fun i => 4 + i.data.length).sum
      by ring]
    rw [Nat.mod_add_mod]

theorem get_data_length_true (dl : List DataItem) :
    (vsp_cmcp_datalist_get_data dl).length =
      (dl.map fun it => 4 + it.data.length).sum := by
  induction dl with
  | nil => simp [vsp_cmcp_datalist_get_data]
  | cons it rest ih =>
    simp [vsp_cmcp_datalist_get_data, encode16] at ih ⊢
    omega

theorem decode16_lt (b0 b1 : Nat) : decode16 b0 b1 < 65536 := by
  simp only [decode16]
  omega

theorem bigPayload_length : bigPayload.length = 4092 := by
  rw [bigPayload, List.length_replicate]

theorem bigItem_data_length (k : Nat) :
    (⟨k, bigPayload⟩ : DataItem).data.length = 4092 :=
  bigPayload_length

theorem bigDatalist_wf : ∀ it ∈ bigDatalist, it.data.length < 65536 := by
  intro it hit
  simp only [bigDatalist, List.mem_cons, List.not_mem_nil, or_false] at hit
  rcases hit with rfl | rfl | rfl | rfl | rfl | rfl | rfl | rfl | rfl | rfl |
    rfl | rfl | rfl | rfl | rfl | rfl
  all_goals rw [bigItem_data_length]
  all_goals norm_num

theorem bigDatalist_serialized_size :
    (vsp_cmcp_datalist_get_data bigDatalist).length = 65536 := by
  rw [get_data_length_true]
  simp only [bigDatalist, List.map_cons, List.map_nil, List.sum_cons,
    List.sum_nil, bigItem_data_length, bigPayload_length]
  norm_num

/-! ## Claim theorems -/

/-- C7: `vsp_cmcp_datalist_add_item` fails with `ENOMEM` when the list
already holds 16 items, fails with `EALREADY` when the item ID is already
present in a non-full list, and otherwise succeeds by appending the item;
an item whose ID was successfully added cannot be added again; and from an
empty list, 16 adds with pairwise-distinct IDs all succeed while the 17th
add fails with `ENOMEM`. -/
theorem add_item_errors :
    (∀ (dl : List DataItem) (dataItemId : Nat) (d : List Nat),
      VSP_CMCP_DATALIST_MAX_ITEMS ≤ dl.length →
      vsp_cmcp_datalist_add_item dl dataItemId d = .error .enomem) ∧
    (∀ (dl : List DataItem) (dataItemId : Nat) (d : List Nat),
      dl.length < VSP_CMCP_DATALIST_MAX_ITEMS →
      (vsp_cmcp_datalist_find_item dl dataItemId).isSome →
      vsp_cmcp_datalist_add_item dl dataItemId d = .error .ealready) ∧
    (∀ (dl : List DataItem) (dataItemId : Nat) (d : List Nat),
      dl.length < VSP_CMCP_DATALIST_MAX_ITEMS →
      vsp_cmcp_datalist_find_item dl dataItemId = none →
      vsp_cmcp_datalist_add_item dl dataItemId d =
        .ok (dl ++ [⟨dataItemId, d⟩])) ∧
    (∀ (dl dl2 : List DataItem) (dataItemId : Nat) (d d2 : List Nat),
      vsp_cmcp_datalist_add_item dl dataItemId d = .ok dl2 →
      ∃ e, vsp_cmcp_datalist_add_item dl2 dataItemId d2 = .error e) ∧
    (∀ items : List (Nat × List Nat),
      items.length = 16 → (items.map Prod.fst).Nodup →
      ∃ dl16, addItems [] items = .ok dl16 ∧ dl16.length = 16 ∧
        ∀ (dataItemId : Nat) (d : List Nat),
          vsp_cmcp_datalist_add_item dl16 dataItemId d = .error .enomem) := by
  have hfull : ∀ (dl : List DataItem) (dataItemId : Nat) (d : List Nat),
      VSP_CMCP_DATALIST_MAX_ITEMS ≤ dl.length →
      vsp_cmcp_datalist_add_item dl dataItemId d = .error .enomem := by
    intro dl dataItemId d h
    simp [vsp_cmcp_datalist_add_item, Nat.not_lt.mpr h]
  refine ⟨hfull, ?_, ?_, ?_, ?_⟩
  · intro dl dataItemId d hlt hsome
    simp [vsp_cmcp_datalist_add_item, hlt, hsome]
  · intro dl dataItemId d hlt hnone
    exact add_item_ok dl dataItemId d hlt hnone
  · intro dl dl2 dataItemId d d2 hok
    by_cases hlen : dl.length < VSP_CMCP_DATALIST_MAX_ITEMS
    · by_cases hfind : (vsp_cmcp_datalist_find_item dl dataItemId).isSome
      · simp [vsp_cmcp_datalist_add_item, hlen, hfind] at hok
      · have hnone : vsp_cmcp_datalist_find_item dl dataItemId = none :=
          Option.not_isSome_iff_eq_none.mp hfind
        rw [add_item_ok dl dataItemId d hlen hnone] at hok
        cases hok
        by_cases hlen2 :
            (dl ++ [(⟨dataItemId, d⟩ : DataItem)]).length <
              VSP_CMCP_DATALIST_MAX_ITEMS
        · refine ⟨.ealready, ?_⟩
          have hsome2 : (vsp_cmcp_datalist_find_item
              (dl ++ [⟨dataItemId, d⟩]) dataItemId).isSome := by
            simp only [vsp_cmcp_datalist_find_item]
            rw [Option.isSome_iff_ne_none]
            intro hcontra
            rw [List.findIdx?_eq_none_iff] at hcontra
            have := hcontra ⟨dataItemId, d⟩ (by simp)
            simp at this
          simp only [vsp_cmcp_datalist_add_item]
          rw [if_neg (not_not_intro hlen2), if_pos hsome2]
        · exact ⟨.enomem, hfull _ _ _ (Nat.not_lt.mp hlen2)⟩
    · simp [vsp_cmcp_datalist_add_item, hlen] at hok
  · intro items hlen hnodup
    refine ⟨items.map fun p => ⟨p.1, p.2⟩, ?_, by simp [hlen], ?_⟩
    · simpa using addItems_ok items []
        (by simp [hlen, VSP_CMCP_DATALIST_MAX_ITEMS]) (by simpa using hnodup)
    · intro dataItemId d
      exact hfull _ _ _ (by simp [hlen, VSP_CMCP_DATALIST_MAX_ITEMS])

/-- Witness for C7 at concrete inputs: a full 16-item list rejects a 17th
add with `ENOMEM`, a duplicate ID is rejected with `EALREADY`, a fresh ID is
appended, a second add of an accepted ID fails, and the 16-step/17th-step
scenario instantiated with item IDs 0..15. -/
theorem add_item_errors_witness :
    (VSP_CMCP_DATALIST_MAX_ITEMS ≤
        ((List.range 16).map fun i => (⟨i, []⟩ : DataItem)).length ∧
      vsp_cmcp_datalist_add_item
        ((List.range 16).map fun i => (⟨i, []⟩ : DataItem)) 99 [] =
        .error .enomem) ∧
    (vsp_cmcp_datalist_add_item [⟨5, [1]⟩] 5 [2] = .error .ealready) ∧
    (vsp_cmcp_datalist_add_item [⟨5, [1]⟩] 6 [2] =
      .ok [⟨5, [1]⟩, ⟨6, [2]⟩]) ∧
    (∃ e, vsp_cmcp_datalist_add_item [⟨5, [1]⟩, ⟨7, [3]⟩] 7 [4] =
      .error e) ∧
    (∃ dl16, addItems [] ((List.range 16).map fun i => (i, [])) = .ok dl16 ∧
      dl16.length = 16 ∧
      ∀ (dataItemId : Nat) (d : List Nat),
        vsp_cmcp_datalist_add_item dl16 dataItemId d = .error .enomem) := by
  refine ⟨⟨by decide, add_item_errors.1 _ 99 [] (by decide)⟩, ?_, ?_, ?_, ?_⟩
  · exact add_item_errors.2.1 _ 5 [2] (by decide) (by decide)
  · exact add_item_errors.2.2.1 _ 6 [2] (by decide) (by decide)
  · exact add_item_errors.2.2.2.1 [⟨5, [1]⟩] _ 7 [3] [4] (by decide)
  · exact add_item_errors.2.2.2.2 _ (by decide) (by decide)

/-- C8: parsing a buffer shorter than the 6-byte message header fails with
`EINVAL` (the parse returns the failure before doing anything else). -/
theorem message_parse_short_buffer (buf : List Nat)
    (h : buf.length < VSP_CMCP_MESSAGE_HEADER_LENGTH) :
    vsp_cmcp_message_create_parse buf.length buf = .error .einval := by
  have h6 : buf.length < 6 := h
  simp only [vsp_cmcp_message_create_parse, VSP_CMCP_MESSAGE_HEADER_LENGTH]
  rw [Nat.mod_eq_of_lt (by omega)]
  simp [h6]

/-- Witness for C8: a 5-byte buffer is rejected. -/
theorem message_parse_short_buffer_witness :
    ([1, 2, 3, 4, 5] : List Nat).length < VSP_CMCP_MESSAGE_HEADER_LENGTH ∧
      vsp_cmcp_message_create_parse ([1, 2, 3, 4, 5] : List Nat).length
        [1, 2, 3, 4, 5] = .error .einval :=
  ⟨by decide, message_parse_short_buffer [1, 2, 3, 4, 5] (by decide)⟩

/-- C9: every node ID `vsp_cmcp_node_generate_id` produces is even for a
server and odd for a client, and equals neither the server-broadcast nor the
client-broadcast topic ID (and fits in 16 bits). -/
theorem generate_id_domain (nodeType : VspNodeType) (draws : List Nat)
    (id : Nat) (h : vsp_cmcp_node_generate_id nodeType draws = some id) :
    (nodeType = .server → id % 2 = 0) ∧
    (nodeType = .client → id % 2 = 1) ∧
    id ≠ VSP_CMCP_SERVER_BROADCAST_TOPIC_ID ∧
    id ≠ VSP_CMCP_CLIENT_BROADCAST_TOPIC_ID ∧
    id < 65536 := by
  induction draws with
  | nil => simp [vsp_cmcp_node_generate_id] at h
  | cons r rest ih =>
    cases nodeType with
    | server =>
      rw [vsp_cmcp_node_generate_id] at h
      by_cases hrej :
          serverIdCandidate r == VSP_CMCP_SERVER_BROADCAST_TOPIC_ID
      · rw [if_pos hrej] at h
        exact ih h
      · rw [if_neg hrej] at h
        cases h
        have hne : serverIdCandidate r ≠ VSP_CMCP_SERVER_BROADCAST_TOPIC_ID :=
          by simpa using hrej
        have heven : serverIdCandidate r % 2 = 0 := by
          simp only [serverIdCandidate]
          omega
        refine ⟨fun _ => heven, by simp, hne, ?_, ?_⟩
        · simp only [VSP_CMCP_CLIENT_BROADCAST_TOPIC_ID]
          omega
        · simp only [serverIdCandidate]
          omega
    | client =>
      rw [vsp_cmcp_node_generate_id] at h
      by_cases hrej :
          clientIdCandidate r == VSP_CMCP_CLIENT_BROADCAST_TOPIC_ID
      · rw [if_pos hrej] at h
        exact ih h
      · rw [if_neg hrej] at h
        cases h
        have hne : clientIdCandidate r ≠ VSP_CMCP_CLIENT_BROADCAST_TOPIC_ID :=
          by simpa using hrej
        have hodd : clientIdCandidate r % 2 = 1 := by
          have hbit : (r ||| 1).testBit 0 = true := by
            rw [Nat.testBit_or]
            simp
          rw [Nat.testBit_zero] at hbit
          have h1 : (r ||| 1) % 2 = 1 := of_decide_eq_true hbit
          simp only [clientIdCandidate]
          omega
        refine ⟨by simp, fun _ => hodd, ?_, hne, ?_⟩
        · simp only [VSP_CMCP_SERVER_BROADCAST_TOPIC_ID]
          omega
        · simp only [clientIdCandidate]
          exact Nat.mod_lt _ (by norm_num)

/-- Witness for C9: a server draw of 3 yields ID 6 (even, not a broadcast
topic), a client draw of 4 yields ID 5 (odd, not a broadcast topic). -/
theorem generate_id_domain_witness :
    (vsp_cmcp_node_generate_id .server [3] = some 6 ∧
      6 % 2 = 0 ∧ (6 : Nat) ≠ VSP_CMCP_SERVER_BROADCAST_TOPIC_ID ∧
      (6 : Nat) ≠ VSP_CMCP_CLIENT_BROADCAST_TOPIC_ID) ∧
    (vsp_cmcp_node_generate_id .client [4] = some 5 ∧
      5 % 2 = 1 ∧ (5 : Nat) ≠ VSP_CMCP_SERVER_BROADCAST_TOPIC_ID ∧
      (5 : Nat) ≠ VSP_CMCP_CLIENT_BROADCAST_TOPIC_ID) := by
  have hs := generate_id_domain .server [3] 6 (by decide)
  have hc := generate_id_domain .client [4] 5 (by decide)
  exact ⟨⟨by decide, hs.1 rfl, hs.2.2.1, hs.2.2.2.1⟩,
    ⟨by decide, hc.2.1 rfl, hc.2.2.1, hc.2.2.2.1⟩⟩

theorem get_data_cons (it : DataItem) (rest : List DataItem) :
    vsp_cmcp_datalist_get_data (it :: rest) =
      it.id % 256 :: it.id / 256 % 256 ::
      it.data.length % 256 :: it.data.length / 256 % 256 ::
      (it.data ++ vsp_cmcp_datalist_get_data rest) := by
  simp [vsp_cmcp_datalist_get_data, encode16]

theorem get_data_length_cons (it : DataItem) (rest : List DataItem) :
    (vsp_cmcp_datalist_get_data (it :: rest)).length =
      4 + it.data.length + (vsp_cmcp_datalist_get_data rest).length := by
  rw [get_data_cons]
  simp only [List.length_cons, List.length_append]
  omega

theorem parse_loop_lt_four (dataLength : Nat) (buf : List Nat)
    (acc : List DataItem) (h : dataLength < 4) :
    vsp_cmcp_datalist_parse_loop dataLength buf acc = acc := by
  rw [vsp_cmcp_datalist_parse_loop]
  rw [dif_neg (Nat.not_le.mpr h)]

theorem parse_loop_step (id len : Nat) (payload tail : List Nat)
    (acc : List DataItem) (hplen : payload.length = len)
    (hid : id < 65536) (hlen16 : len < 65536) :
    vsp_cmcp_datalist_parse_loop (4 + len + tail.length)
      (id % 256 :: id / 256 % 256 :: len % 256 :: len / 256 % 256 ::
        (payload ++ tail)) acc =
      vsp_cmcp_datalist_parse_loop tail.length tail
        (match vsp_cmcp_datalist_add_item acc id payload with
         | .ok dl2 => dl2
         | .error _ => acc) := by
  have h4 : 4 ≤ 4 + len + tail.length := by omega
  rw [vsp_cmcp_datalist_parse_loop, dif_pos h4]
  have hg0 : ((id % 256 : Nat) :: id / 256 % 256 :: len % 256 ::
      len / 256 % 256 :: (payload ++ tail)).getD 0 0 = id % 256 := rfl
  have hg1 : ((id % 256 : Nat) :: id / 256 % 256 :: len % 256 ::
      len / 256 % 256 :: (payload ++ tail)).getD 1 0 = id / 256 % 256 := rfl
  have hg2 : ((id % 256 : Nat) :: id / 256 % 256 :: len % 256 ::
      len / 256 % 256 :: (payload ++ tail)).getD 2 0 = len % 256 := rfl
  have hg3 : ((id % 256 : Nat) :: id / 256 % 256 :: len % 256 ::
      len / 256 % 256 :: (payload ++ tail)).getD 3 0 = len / 256 % 256 := rfl
  have hdec_id : decode16 (id % 256) (id / 256 % 256) = id := by
    simp only [decode16]
    omega
  have hdec_len : decode16 (len % 256) (len / 256 % 256) = len := by
    simp only [decode16]
    omega
  rw [hg0, hg1, hg2, hg3, hdec_id, hdec_len]
  have hrem : 4 + len + tail.length - 4 = len + tail.length := by omega
  rw [hrem, if_neg (by omega)]
  have hdrop4 : ((id % 256 : Nat) :: id / 256 % 256 :: len % 256 ::
      len / 256 % 256 :: (payload ++ tail)).drop 4 = payload ++ tail := rfl
  have htake : (payload ++ tail).take len = payload :=
    List.take_left' hplen
  have hdropfull : ((id % 256 : Nat) :: id / 256 % 256 :: len % 256 ::
      len / 256 % 256 :: (payload ++ tail)).drop (4 + len) = tail := by
    have hsplit : (id % 256 : Nat) :: id / 256 % 256 :: len % 256 ::
        len / 256 % 256 :: (payload ++ tail) =
        ((id % 256 : Nat) :: id / 256 % 256 :: len % 256 ::
          len / 256 % 256 :: payload) ++ tail := by
      simp
    rw [hsplit]
    refine List.drop_left' ?_
    simp only [List.length_cons, hplen]
    omega
  rw [hdrop4, htake, hdropfull]
  have hsub : len + tail.length - len = tail.length := by omega
  rw [hsub]

theorem parse_loop_get_data (dl : List DataItem) (acc : List DataItem)
    (hcount : acc.length + dl.length ≤ VSP_CMCP_DATALIST_MAX_ITEMS)
    (hnodup : (acc.map DataItem.id ++ dl.map DataItem.id).Nodup)
    (hid : ∀ it ∈ dl, it.id < 65536)
    (hsize : (vsp_cmcp_datalist_get_data dl).length < 65536) :
    vsp_cmcp_datalist_parse_loop (vsp_cmcp_datalist_get_data dl).length
      (vsp_cmcp_datalist_get_data dl) acc = acc ++ dl := by
  induction dl generalizing acc with
  | nil =>
    simp only [vsp_cmcp_datalist_get_data, List.flatMap_nil, List.length_nil]
    rw [parse_loop_lt_four _ _ _ (by norm_num)]
    simp
  | cons it rest ih =>
    have hlen_cons := get_data_length_cons it rest
    have hitid : it.id < 65536 := hid it (by simp)
    have hitlen : it.data.length < 65536 := by
      rw [hlen_cons] at hsize
      omega
    rw [hlen_cons, get_data_cons]
    rw [parse_loop_step it.id it.data.length it.data
      (vsp_cmcp_datalist_get_data rest) acc rfl hitid hitlen]
    have hmem : it.id ∉ acc.map DataItem.id := by
      rw [List.nodup_append] at hnodup
      exact fun hin => hnodup.2.2 hin (by simp)
    have hfind : vsp_cmcp_datalist_find_item acc it.id = none := by
      refine find_item_eq_none _ _ (fun a ha heq => hmem ?_)
      exact heq ▸ List.mem_map_of_mem DataItem.id ha
    have hlt : acc.length < VSP_CMCP_DATALIST_MAX_ITEMS := by
      simp only [List.length_cons] at hcount
      omega
    rw [add_item_ok acc it.id it.data hlt hfind]
    have hnodup2 : ((acc ++ [it]).map DataItem.id ++
        rest.map DataItem.id).Nodup := by
      have hshape : (acc ++ [it]).map DataItem.id ++ rest.map DataItem.id =
          acc.map DataItem.id ++ (it.id :: rest.map DataItem.id) := by
        simp
      rw [hshape]
      simpa using hnodup
    have hcount2 : (acc ++ [it]).length + rest.length ≤
        VSP_CMCP_DATALIST_MAX_ITEMS := by
      simp only [List.length_append, List.length_cons, List.length_nil]
        at hcount ⊢
      omega
    have hsize2 : (vsp_cmcp_datalist_get_data rest).length < 65536 := by
      rw [hlen_cons] at hsize
      omega
    have hid2 : ∀ a ∈ rest, a.id < 65536 := fun a ha => hid a (by simp [ha])
    have hstep := ih (acc ++ [it]) hcount2 hnodup2 hid2 hsize2
    show vsp_cmcp_datalist_parse_loop (vsp_cmcp_datalist_get_data rest).length
      (vsp_cmcp_datalist_get_data rest) (acc ++ [it]) = acc ++ it :: rest
    rw [hstep]
    simp

theorem get_data_item_of_mem (dl : List DataItem)
    (hnodup : (dl.map DataItem.id).Nodup) (it : DataItem) (hmem : it ∈ dl) :
    vsp_cmcp_datalist_get_data_item dl it.id it.data.length =
      .ok it.data := by
  induction dl with
  | nil => cases hmem
  | cons a rest ih =>
    rcases List.mem_cons.mp hmem with rfl | hmem2
    · simp [vsp_cmcp_datalist_get_data_item, List.find?_cons]
    · have hne : (a.id == it.id) = false := by
        simp only [List.map_cons, List.nodup_cons] at hnodup
        have : it.id ∈ rest.map DataItem.id :=
          List.mem_map_of_mem DataItem.id hmem2
        simp only [beq_eq_false_iff_ne, ne_eq]
        intro hcontra
        exact hnodup.1 (hcontra ▸ this)
      have hrest : (rest.map DataItem.id).Nodup := by
        simp only [List.map_cons, List.nodup_cons] at hnodup
        exact hnodup.2
      simp only [vsp_cmcp_datalist_get_data_item, List.find?_cons, hne]
      exact ih hrest hmem2

/-- C1: evaluation of the server control path at a registry that holds the
clients 1 and 3 (in this order) and an admitting announcement callback.
A second `ClientAnnounce` from client 3 — registered at index 1 — is NOT
rejected: because `vsp_cmcp_server_register_client` compares the
`vsp_cmcp_server_find_client` result against 0 instead of against -1, the
duplicate check only fires for the client at registry index 0.  Client 3 is
appended a second time (the registry then holds the ID 3 twice, violating
uniqueness) and a `ServerAckClient` is sent instead of a `ServerNackClient`.
A re-announcement of client 1 (index 0) is rejected with a NACK and an
unchanged registry, as the claim demands for every index. -/
theorem register_client_duplicate_accepted :
    vsp_cmcp_server_handle_control_message bugServerState 3
        VSP_CMCP_COMMAND_CLIENT_ANNOUNCE [nonceItem] 50 =
      some ({ bugServerState with clients := [(1, 100), (3, 100), (3, 10050)] },
        [.subscribe 3, .sendAck 3 42]) ∧
    ¬ (([(1, 100), (3, 100), (3, 10050)] : List (Nat × Nat)).map
        Prod.fst).Nodup ∧
    vsp_cmcp_server_handle_control_message bugServerState 1
        VSP_CMCP_COMMAND_CLIENT_ANNOUNCE [nonceItem] 50 =
      some (bugServerState, [.sendNack 1 42]) := by
  refine ⟨rfl, by decide, rfl⟩

/-- C3: evaluation of the server control path at a `ClientDisconnect`.  For a
registered sender the entry is removed, the topic unsubscribed and the
disconnect callback invoked; but for an unregistered sender
`vsp_cmcp_server_deregister_client` hits `VSP_ASSERT(index >= 0)` (modelled as
`none`): debug builds abort, NDEBUG builds continue with index -1, freeing
`client_data[-1]` and wrapping `client_count` from 0 to 65535 — not the
claimed unchanged registry. -/
theorem disconnect_unregistered_asserts :
    vsp_cmcp_server_handle_control_message emptyServerState 5
        VSP_CMCP_COMMAND_CLIENT_DISCONNECT [] 50 = none ∧
    vsp_cmcp_server_handle_control_message oneClientServerState 5
        VSP_CMCP_COMMAND_CLIENT_DISCONNECT [] 50 =
      some ({ oneClientServerState with clients := [] },
        [.unsubscribe 5, .disconnectCb 5]) := by
  exact ⟨rfl, rfl⟩

/-- C2: for a message constructed from a semantic command below 2^15 and a
type, the wire command word is `command * 2 + type_bit`, serializing with
`get_data` and re-parsing recovers exactly that type and command; and every
successfully parsed message has a command ID below 2^15 and a type that is
either `control` or `data`. -/
theorem message_type_flag :
    (∀ (messageType : VspMessageType) (topicId senderId commandId : Nat)
        (dl : Option (List DataItem)),
      commandId < 32768 →
      (vsp_cmcp_message_create messageType topicId senderId commandId
          dl).commandIdWire = commandId * 2 + messageType.bit ∧
      ((vsp_cmcp_message_get_data (vsp_cmcp_message_create messageType topicId
          senderId commandId dl)).length < 65536 →
        ∃ m, vsp_cmcp_message_create_parse
            (vsp_cmcp_message_get_data (vsp_cmcp_message_create messageType
              topicId senderId commandId dl)).length
            (vsp_cmcp_message_get_data (vsp_cmcp_message_create messageType
              topicId senderId commandId dl)) = .ok m ∧
          vsp_cmcp_message_get_type m = messageType ∧
          vsp_cmcp_message_get_command_id m = commandId)) ∧
    (∀ (dataLength : Nat) (buf : List Nat) (m : VspMessage),
      vsp_cmcp_message_create_parse dataLength buf = .ok m →
      vsp_cmcp_message_get_command_id m < 32768 ∧
      (vsp_cmcp_message_get_type m = .control ∨
        vsp_cmcp_message_get_type m = .data)) := by
  constructor
  · intro messageType topicId senderId commandId dl hcmd
    have hbit : messageType.bit ≤ 1 := by
      cases messageType <;> simp [VspMessageType.bit]
    have hwire : commandId * 2 + messageType.bit < 65536 := by omega
    have hwire_eq : (vsp_cmcp_message_create messageType topicId senderId
        commandId dl).commandIdWire = commandId * 2 + messageType.bit := by
      simp only [vsp_cmcp_message_create]
      exact Nat.mod_eq_of_lt hwire
    refine ⟨hwire_eq, fun hlen => ?_⟩
    set buf := vsp_cmcp_message_get_data
      (vsp_cmcp_message_create messageType topicId senderId commandId dl)
      with hbuf
    have hbuf_shape : buf =
        topicId % 65536 % 256 :: topicId % 65536 / 256 % 256 ::
        senderId % 65536 % 256 :: senderId % 65536 / 256 % 256 ::
        (commandId * 2 + messageType.bit) % 65536 % 256 ::
        (commandId * 2 + messageType.bit) % 65536 / 256 % 256 ::
        datalistBytes dl := by
      rw [hbuf]
      rfl
    have hlen6 : 6 ≤ buf.length := by
      rw [hbuf_shape]
      simp only [List.length_cons]
      omega
    have hn : buf.length % 65536 = buf.length := Nat.mod_eq_of_lt hlen
    have hparse : vsp_cmcp_message_create_parse buf.length buf = .ok
        { topicId := decode16 (buf.getD 0 0) (buf.getD 1 0)
          senderId := decode16 (buf.getD 2 0) (buf.getD 3 0)
          commandIdWire := decode16 (buf.getD 4 0) (buf.getD 5 0)
          datalist := some (vsp_cmcp_datalist_create_parse
            (buf.length % 65536 - VSP_CMCP_MESSAGE_HEADER_LENGTH)
            (buf.drop 6)) } := by
      have hge : ¬ buf.length % 65536 < VSP_CMCP_MESSAGE_HEADER_LENGTH := by
        rw [hn]
        simp only [VSP_CMCP_MESSAGE_HEADER_LENGTH]
        omega
      simp only [vsp_cmcp_message_create_parse]
      rw [if_neg hge]
    refine ⟨_, hparse, ?_, ?_⟩
    · have hc0 : buf.getD 4 0 =
          (commandId * 2 + messageType.bit) % 65536 % 256 := by
        rw [hbuf_shape]
        rfl
      have hc1 : buf.getD 5 0 =
          (commandId * 2 + messageType.bit) % 65536 / 256 % 256 := by
        rw [hbuf_shape]
        rfl
      simp only [vsp_cmcp_message_get_type, hc0, hc1, decode16]
      cases messageType with
      | control =>
        simp only [VspMessageType.bit] at hwire ⊢
        rw [if_neg]
        simp only [beq_iff_eq]
        omega
      | data =>
        simp only [VspMessageType.bit] at hwire ⊢
        rw [if_pos]
        simp only [beq_iff_eq]
        omega
    · have hc0 : buf.getD 4 0 =
          (commandId * 2 + messageType.bit) % 65536 % 256 := by
        rw [hbuf_shape]
        rfl
      have hc1 : buf.getD 5 0 =
          (commandId * 2 + messageType.bit) % 65536 / 256 % 256 := by
        rw [hbuf_shape]
        rfl
      simp only [vsp_cmcp_message_get_command_id, hc0, hc1, decode16]
      omega
  · intro dataLength buf m hok
    simp only [vsp_cmcp_message_create_parse] at hok
    by_cases hn : dataLength % 65536 < VSP_CMCP_MESSAGE_HEADER_LENGTH
    · rw [if_pos hn] at hok
      cases hok
    · rw [if_neg hn] at hok
      cases hok
      constructor
      · have := decode16_lt (buf.getD 4 0) (buf.getD 5 0)
        simp only [vsp_cmcp_message_get_command_id]
        omega
      · by_cases hb : decode16 (buf.getD 4 0) (buf.getD 5 0) % 2 == 1
        · right
          simp only [vsp_cmcp_message_get_type]
          rw [if_pos hb]
        · left
          simp only [vsp_cmcp_message_get_type]
          rw [if_neg hb]

/-- Witness for C2: a data message with command 5, topic 7, sender 4 and no
data list serializes to 6 bytes and parses back to command 5 of type data. -/
theorem message_type_flag_witness :
    (5 : Nat) < 32768 ∧
    (vsp_cmcp_message_create .data 7 4 5 none).commandIdWire = 11 ∧
    ((vsp_cmcp_message_get_data
        (vsp_cmcp_message_create .data 7 4 5 none)).length < 65536 ∧
      ∃ m, vsp_cmcp_message_create_parse
          (vsp_cmcp_message_get_data
            (vsp_cmcp_message_create .data 7 4 5 none)).length
          (vsp_cmcp_message_get_data
            (vsp_cmcp_message_create .data 7 4 5 none)) = .ok m ∧
        vsp_cmcp_message_get_type m = .data ∧
        vsp_cmcp_message_get_command_id m = 5) := by
  have h := message_type_flag.1 .data 7 4 5 none (by decide)
  exact ⟨by decide, h.1, by decide, h.2 (by decide)⟩

/-- C4 counterexample: a data list built by 16 `add_item` calls with
pairwise-distinct IDs whose serialized size is 65536 bytes does not
round-trip: `create_parse` takes the length as a `uint16_t`, so the buffer's
length narrows to 65536 mod 65536 = 0 and the parse yields the empty data
list instead of the original 16 items. -/
theorem datalist_roundtrip_counterexample :
    addItems [] bigItems = .ok bigDatalist ∧
    (vsp_cmcp_datalist_get_data bigDatalist).length = 65536 ∧
    vsp_cmcp_datalist_create_parse
      (vsp_cmcp_datalist_get_data bigDatalist).length
      (vsp_cmcp_datalist_get_data bigDatalist) = [] ∧
    bigDatalist ≠ [] := by
  refine ⟨rfl, bigDatalist_serialized_size, ?_, ?_⟩
  · rw [bigDatalist_serialized_size, vsp_cmcp_datalist_create_parse]
    rw [show (65536 : Nat) % 65536 = 0 by norm_num]
    exact parse_loop_lt_four _ _ _ (by norm_num)
  · rw [bigDatalist]
    exact List.cons_ne_nil _ _

/-- C4 (amended): for every data list of at most 16 items with
pairwise-distinct 16-bit item IDs whose serialized size is below 65536 bytes,
parsing the `get_data` serialization with `create_parse` yields a data list
equal to the original (same item count and insertion order), and looking up
each item ID with its original byte length returns the original payload.
(Lists whose serialized size reaches 65536 bytes fail the round trip because
`create_parse` narrows its length parameter to 16 bits, as the counterexample
shows.) -/
theorem datalist_roundtrip (dl : List DataItem)
    (hcount : dl.length ≤ VSP_CMCP_DATALIST_MAX_ITEMS)
    (hnodup : (dl.map DataItem.id).Nodup)
    (hid : ∀ it ∈ dl, it.id < 65536)
    (hsize : (vsp_cmcp_datalist_get_data dl).length < 65536) :
    vsp_cmcp_datalist_create_parse
      (vsp_cmcp_datalist_get_data dl).length
      (vsp_cmcp_datalist_get_data dl) = dl ∧
    ∀ it ∈ dl,
      vsp_cmcp_datalist_get_data_item
        (vsp_cmcp_datalist_create_parse
          (vsp_cmcp_datalist_get_data dl).length
          (vsp_cmcp_datalist_get_data dl)) it.id it.data.length =
        .ok it.data := by
  have hparse : vsp_cmcp_datalist_create_parse
      (vsp_cmcp_datalist_get_data dl).length
      (vsp_cmcp_datalist_get_data dl) = dl := by
    rw [vsp_cmcp_datalist_create_parse, Nat.mod_eq_of_lt hsize]
    have h := parse_loop_get_data dl []
      (by simpa using hcount) (by simpa using hnodup) hid hsize
    simpa using h
  refine ⟨hparse, fun it hmem => ?_⟩
  rw [hparse]
  exact get_data_item_of_mem dl hnodup it hmem

/-- Witness for C4 (amended) at a concrete two-item list. -/
theorem datalist_roundtrip_witness :
    ([⟨7, [1, 2, 3]⟩, (⟨9, []⟩ : DataItem)].length ≤
        VSP_CMCP_DATALIST_MAX_ITEMS ∧
      (([⟨7, [1, 2, 3]⟩, (⟨9, []⟩ : DataItem)].map DataItem.id).Nodup) ∧
      (vsp_cmcp_datalist_get_data
        [⟨7, [1, 2, 3]⟩, (⟨9, []⟩ : DataItem)]).length < 65536) ∧
    vsp_cmcp_datalist_create_parse
      (vsp_cmcp_datalist_get_data
        [⟨7, [1, 2, 3]⟩, (⟨9, []⟩ : DataItem)]).length
      (vsp_cmcp_datalist_get_data [⟨7, [1, 2, 3]⟩, (⟨9, []⟩ : DataItem)]) =
      [⟨7, [1, 2, 3]⟩, (⟨9, []⟩ : DataItem)] ∧
    vsp_cmcp_datalist_get_data_item
      (vsp_cmcp_datalist_create_parse
        (vsp_cmcp_datalist_get_data
          [⟨7, [1, 2, 3]⟩, (⟨9, []⟩ : DataItem)]).length
        (vsp_cmcp_datalist_get_data [⟨7, [1, 2, 3]⟩, (⟨9, []⟩ : DataItem)]))
      7 3 = .ok [1, 2, 3] := by
  have h := datalist_roundtrip [⟨7, [1, 2, 3]⟩, (⟨9, []⟩ : DataItem)]
    (by decide) (by decide) (by decide) (by decide)
  exact ⟨⟨by decide, by decide, by decide⟩, h.1,
    h.2 ⟨7, [1, 2, 3]⟩ (by decide)⟩

/-- C5: in state `HeartbeatReceived` the client control handler accepts only
`ServerAckClient` or `ServerNackClient` from the recorded server whose data
list carries an 8-byte nonce item matching the outstanding nonce: an accepted
ACK moves the FSM to `Connected` and initializes the timeout deadline to
`now + connection timeout`; an accepted NACK moves it to `Disconnected` and
replaces the node ID by the regenerated one; every other control message
leaves the session unchanged and sends nothing. -/
theorem client_heartbeat_received_handshake (cs : ClientSession)
    (senderId commandId : Nat) (dl : List DataItem)
    (now freshNonce freshId : Nat) (hfsm : cs.fsm = .heartbeatReceived) :
    (∀ payload, senderId = cs.serverId →
      vsp_cmcp_datalist_get_data_item dl VSP_CMCP_PARAMETER_NONCE 8 =
        .ok payload →
      decode64 payload = cs.nonce →
      (commandId = VSP_CMCP_COMMAND_SERVER_ACK_CLIENT →
        vsp_cmcp_client_handle_control_message cs senderId commandId dl
          now freshNonce freshId =
          ({ cs with
              fsm := .connected
              timeoutDeadline := now + VSP_CMCP_NODE_CONNECTION_TIMEOUT },
            [])) ∧
      (commandId = VSP_CMCP_COMMAND_SERVER_NACK_CLIENT →
        vsp_cmcp_client_handle_control_message cs senderId commandId dl
          now freshNonce freshId =
          ({ cs with fsm := .disconnected, id := freshId }, []))) ∧
    (¬ (senderId = cs.serverId ∧
        (commandId = VSP_CMCP_COMMAND_SERVER_ACK_CLIENT ∨
          commandId = VSP_CMCP_COMMAND_SERVER_NACK_CLIENT) ∧
        ∃ payload,
          vsp_cmcp_datalist_get_data_item dl VSP_CMCP_PARAMETER_NONCE 8 =
            .ok payload ∧ decode64 payload = cs.nonce) →
      vsp_cmcp_client_handle_control_message cs senderId commandId dl
        now freshNonce freshId = (cs, [])) := by
  constructor
  · intro payload hsid hitem hnonce
    constructor
    · intro hcmd
      simp only [vsp_cmcp_client_handle_control_message, hfsm, hsid, hcmd,
        VSP_CMCP_COMMAND_SERVER_ACK_CLIENT, hitem]
      simp [hnonce]
    · intro hcmd
      simp only [vsp_cmcp_client_handle_control_message, hfsm, hsid, hcmd,
        VSP_CMCP_COMMAND_SERVER_ACK_CLIENT,
        VSP_CMCP_COMMAND_SERVER_NACK_CLIENT, hitem]
      simp [hnonce]
  · intro hrej
    simp only [vsp_cmcp_client_handle_control_message, hfsm]
    by_cases hguard : senderId == cs.serverId &&
        (commandId == VSP_CMCP_COMMAND_SERVER_ACK_CLIENT ||
          commandId == VSP_CMCP_COMMAND_SERVER_NACK_CLIENT)
    · rw [if_pos hguard]
      simp only [Bool.and_eq_true, Bool.or_eq_true, beq_iff_eq] at hguard
      cases hitem : vsp_cmcp_datalist_get_data_item dl
        VSP_CMCP_PARAMETER_NONCE 8 with
      | error e => rfl
      | ok payload =>
        have hno : decode64 payload ≠ cs.nonce := by
          intro hmatch
          exact hrej ⟨hguard.1, hguard.2, payload, hitem, hmatch⟩
        simp [hno]
    · rw [if_neg hguard]

/-- Witness for C5 at a concrete session (ID 11, server 4, nonce 42, state
`HeartbeatReceived`): the matching ACK connects, the matching NACK
disconnects and adopts the regenerated ID 13, and an ACK from a different
sender changes nothing. -/
theorem client_heartbeat_received_handshake_witness :
    (vsp_cmcp_client_handle_control_message
        ⟨11, 4, .heartbeatReceived, 42, 0⟩ 4
        VSP_CMCP_COMMAND_SERVER_ACK_CLIENT [nonceItem] 50 99 13 =
      (⟨11, 4, .connected, 42, 10050⟩, [])) ∧
    (vsp_cmcp_client_handle_control_message
        ⟨11, 4, .heartbeatReceived, 42, 0⟩ 4
        VSP_CMCP_COMMAND_SERVER_NACK_CLIENT [nonceItem] 50 99 13 =
      (⟨13, 4, .disconnected, 42, 0⟩, [])) ∧
    (vsp_cmcp_client_handle_control_message
        ⟨11, 4, .heartbeatReceived, 42, 0⟩ 6
        VSP_CMCP_COMMAND_SERVER_ACK_CLIENT [nonceItem] 50 99 13 =
      (⟨11, 4, .heartbeatReceived, 42, 0⟩, [])) := by
  have h1 := (client_heartbeat_received_handshake
    ⟨11, 4, .heartbeatReceived, 42, 0⟩ 4 VSP_CMCP_COMMAND_SERVER_ACK_CLIENT
    [nonceItem] 50 99 13 rfl).1 [42, 0, 0, 0, 0, 0, 0, 0] rfl (by decide)
    (by decide)
  have h2 := (client_heartbeat_received_handshake
    ⟨11, 4, .heartbeatReceived, 42, 0⟩ 4 VSP_CMCP_COMMAND_SERVER_NACK_CLIENT
    [nonceItem] 50 99 13 rfl).1 [42, 0, 0, 0, 0, 0, 0, 0] rfl (by decide)
    (by decide)
  have h3 := (client_heartbeat_received_handshake
    ⟨11, 4, .heartbeatReceived, 42, 0⟩ 6 VSP_CMCP_COMMAND_SERVER_ACK_CLIENT
    [nonceItem] 50 99 13 rfl).2
    (by intro hcontra; exact absurd hcontra.1 (by decide))
  exact ⟨h1.1 rfl, h2.2 rfl, h3⟩

/-- C6 counterexample: `await_state` can return success although the target
value was never observed before the deadline elapsed.  Starting at state 0
waiting for 1, a single wait that times out while the writer concurrently
sets the cell to 1 makes the final `state == target` check succeed — the only
pre-deadline observation (0) differed from the target, refuting the claimed
"success iff observed before the deadline elapsed". -/
theorem await_state_success_after_deadline :
    vsp_cmcp_state_await_state 0 1 [(true, 1)] = some (.ok 1) ∧
    observedBeforeDeadline 0 1 [(true, 1)] = false := by
  decide

/-- C6 (amended): `await_state` never returns success with an unmet value
(the value at the success return equals the target); if the target is
observed before any wait times out, success is guaranteed; and every failure
carries `ETIMEDOUT` and a final value different from the target.  (Success
may additionally be returned when the cell reaches the target concurrently
with the deadline expiring, as the counterexample shows.) -/
theorem await_state_properties (state target : Int)
    (events : List (Bool × Int)) :
    (∀ v, vsp_cmcp_state_await_state state target events = some (.ok v) →
      v = target) ∧
    (observedBeforeDeadline state target events = true →
      vsp_cmcp_state_await_state state target events = some (.ok target)) ∧
    (∀ e v, vsp_cmcp_state_await_state state target events =
        some (.error (e, v)) →
      e = .etimedout ∧ v ≠ target) := by
  induction events generalizing state with
  | nil =>
    by_cases hst : state = target
    · subst hst
      refine ⟨?_, ?_, ?_⟩
      · intro v hv
        simp only [vsp_cmcp_state_await_state, if_pos rfl] at hv
        cases hv
        rfl
      · intro _
        simp [vsp_cmcp_state_await_state]
      · intro e v hv
        simp only [vsp_cmcp_state_await_state, if_pos rfl] at hv
        cases hv
    · refine ⟨?_, ?_, ?_⟩
      · intro v hv
        simp only [vsp_cmcp_state_await_state, if_neg hst] at hv
        cases hv
      · intro hobs
        simp only [observedBeforeDeadline, beq_iff_eq] at hobs
        exact absurd hobs hst
      · intro e v hv
        simp only [vsp_cmcp_state_await_state, if_neg hst] at hv
        cases hv
  | cons ev rest ih =>
    obtain ⟨timedOut, stateAfter⟩ := ev
    by_cases hst : state = target
    · subst hst
      refine ⟨?_, ?_, ?_⟩
      · intro v hv
        simp only [vsp_cmcp_state_await_state, if_pos rfl] at hv
        cases hv
        rfl
      · intro _
        simp [vsp_cmcp_state_await_state]
      · intro e v hv
        simp only [vsp_cmcp_state_await_state, if_pos rfl] at hv
        cases hv
    · have hbeq : (state == target) = false := by
        simpa using hst
      cases timedOut with
      | true =>
        refine ⟨?_, ?_, ?_⟩
        · intro v hv
          simp only [vsp_cmcp_state_await_state, if_neg hst, if_pos] at hv
          by_cases hsa : stateAfter = target
          · rw [if_pos hsa] at hv
            cases hv
            exact hsa
          · rw [if_neg hsa] at hv
            cases hv
        · intro hobs
          simp only [observedBeforeDeadline, hbeq, Bool.false_or,
            Bool.not_true, Bool.false_and] at hobs
          cases hobs
        · intro e v hv
          simp only [vsp_cmcp_state_await_state, if_neg hst, if_pos] at hv
          by_cases hsa : stateAfter = target
          · rw [if_pos hsa] at hv
            cases hv
          · rw [if_neg hsa] at hv
            cases hv
            exact ⟨rfl, hsa⟩
      | false =>
        have hstep : vsp_cmcp_state_await_state state target
            ((false, stateAfter) :: rest) =
            vsp_cmcp_state_await_state stateAfter target rest := by
          simp only [vsp_cmcp_state_await_state, if_neg hst]
          simp
        refine ⟨?_, ?_, ?_⟩
        · intro v hv
          rw [hstep] at hv
          exact (ih stateAfter).1 v hv
        · intro hobs
          simp only [observedBeforeDeadline, hbeq, Bool.false_or,
            Bool.not_false, Bool.true_and] at hobs
          rw [hstep]
          exact (ih stateAfter).2.1 hobs
        · intro e v hv
          rw [hstep] at hv
          exact (ih stateAfter).2.2 e v hv

/-- Witness for C6 (amended) at concrete traces: an in-time observation
yields success with the target value, and a timed-out wait with the value
still unmet yields an `ETIMEDOUT` failure with an unmet final value. -/
theorem await_state_properties_witness :
    (observedBeforeDeadline 0 1 [(false, 1)] = true ∧
      vsp_cmcp_state_await_state 0 1 [(false, 1)] = some (.ok 1)) ∧
    (vsp_cmcp_state_await_state 0 1 [(true, 2)] =
        some (.error (.etimedout, 2)) ∧
      VspErr.etimedout = VspErr.etimedout ∧ (2 : Int) ≠ 1) :=
  ⟨⟨by decide, (await_state_properties 0 1 [(false, 1)]).2.1 (by decide)⟩,
    ⟨by decide,
      (await_state_properties 0 1 [(true, 2)]).2.2 .etimedout 2 (by decide)⟩⟩

/-- C10: `vsp_cmcp_datalist_get_data_length` returns the sum of
`4 + item byte length` over all items reduced modulo 2^16 (the accumulator is
a `uint16_t`), so whenever the true serialized size (the length of the buffer
`vsp_cmcp_datalist_get_data` writes) is at least 65536 bytes the returned
length is strictly smaller than the actual size; no error value is
produced. -/
theorem get_data_length_wraps (dl : List DataItem)
    (_hWF : ∀ it ∈ dl, it.data.length < 65536) :
    vsp_cmcp_datalist_get_data_length dl =
      (dl.map fun it => 4 + it.data.length).sum % 65536 ∧
    (65536 ≤ (vsp_cmcp_datalist_get_data dl).length →
      vsp_cmcp_datalist_get_data_length dl <
        (vsp_cmcp_datalist_get_data dl).length) := by
  have heq : vsp_cmcp_datalist_get_data_length dl =
      (dl.map fun it => 4 + it.data.length).sum % 65536 := by
    simpa using get_data_length_foldl dl 0 (by norm_num)
  refine ⟨heq, fun hbig => ?_⟩
  rw [heq, get_data_length_true]
  calc (dl.map fun it => 4 + it.data.length).sum % 65536 < 65536 :=
        Nat.mod_lt _ (by norm_num)
    _ ≤ (dl.map fun it => 4 + it.data.length).sum := by
        rwa [get_data_length_true] at hbig

/-- Witness for C10: 16 items with 4092 payload bytes each serialize to
65536 bytes, yet `get_data_length` reports 0, under-reporting the size. -/
theorem get_data_length_wraps_witness :
    (∀ it ∈ bigDatalist, it.data.length < 65536) ∧
    (vsp_cmcp_datalist_get_data bigDatalist).length = 65536 ∧
    vsp_cmcp_datalist_get_data_length bigDatalist = 0 ∧
    vsp_cmcp_datalist_get_data_length bigDatalist <
      (vsp_cmcp_datalist_get_data bigDatalist).length := by
  refine ⟨bigDatalist_wf, bigDatalist_serialized_size, ?_, ?_⟩
  · have h := (get_data_length_wraps bigDatalist bigDatalist_wf).1
    rw [h]
    simp only [bigDatalist, List.map_cons, List.map_nil, List.sum_cons,
      List.sum_nil, bigItem_data_length, bigPayload_length]
    norm_num
  · refine (get_data_length_wraps bigDatalist bigDatalist_wf).2 ?_
    rw [bigDatalist_serialized_size]

end Vesper
